import Mathlib

/-!
Shallow embedding of `src/script.py`, a chat plugin that appends a bracketed
locality annotation (date/time, timezone, location, weather) to the
model-facing copy of each chat turn.  External effects (the IP-geolocation
call, the Open-Meteo HTTP request, babel's locale datetime formatting, the
settings file on disk) are modelled as explicit inputs: a `none` input stands
for the call raising an exception or the file being absent.
-/

/-- Settings of the plugin as read by `chat_input_modifier`: one field per key
of the `params` dictionary (`default_params` in the source guarantees every
key is present with this type in every run). -/
structure Params where
  add_time : Bool
  add_date : Bool
  add_timezone : Bool
  add_location : Bool
  add_weather : Bool
  temp_unit : String
  timezone : String
  locale : String
deriving DecidableEq, Repr

/-- Result object of `geocoder.ip` as used by the source: the `city`,
`country` and `latlng` attributes.  `latlng` is `none` when the provider
yields no coordinates. -/
structure GeoResult where
  city : String
  country : String
  latlng : Option (ℚ × ℚ)
deriving DecidableEq, Repr

/-- The `current_weather` fields extracted from the Open-Meteo JSON response:
`weathercode` (integer) and `temperature` (Celsius).  Python floats are
modelled as rationals. -/
structure CurrentWeather where
  weathercode : Int
  temperature : ℚ
deriving DecidableEq, Repr

/-- Embeds `get_location` (src/script.py lines 91-97).  The outcome of the
`geocoder.ip` call is the explicit argument: `some g` when the call returns
an object, `none` when it raises; the `except` branch returns the fixed
placeholder triple. -/
def get_location (resp : Option GeoResult) : String × String × Option (ℚ × ℚ) :=
  match resp with
  | some g => (g.city, g.country, g.latlng)
  | none => ("Location unavailable", "Unknown", none)

/-- The `weather_code_map` dictionary of the source (lines 33-62). -/
def weather_code_map : List (Int × String) :=
  [(0, "Clear"), (1, "Mostly Clear"), (2, "Partly Cloudy"), (3, "Overcast"),
   (45, "Fog"), (48, "Freezing Fog"), (51, "Light Drizzle"),
   (53, "Moderate Drizzle"), (55, "Dense Drizzle"),
   (56, "Light Freezing Drizzle"), (57, "Dense Freezing Drizzle"),
   (61, "Light Rain"), (63, "Moderate Rain"), (65, "Heavy Rain"),
   (66, "Light Freezing Rain"), (67, "Heavy Freezing Rain"),
   (71, "Light Snow"), (73, "Moderate Snow"), (75, "Heavy Snow"),
   (77, "Snow Grains"), (80, "Light Rain Showers"),
   (81, "Moderate Rain Showers"), (82, "Violent Rain Showers"),
   (85, "Slight Snow Showers"), (86, "Heavy Snow Showers"),
   (95, "Thunderstorm: Slight or Moderate"),
   (96, "Thunderstorm With Light Hail"),
   (99, "Thunderstorm With Heavy Hail")]

/-- Dictionary lookup `weather_code_map.get(code, "Unknown weather condition")`
(line 122 of the source). -/
def weather_code_get (code : Int) : String :=
  match weather_code_map.find? (fun p => p.1 = code) with
  | some p => p.2
  | none => "Unknown weather condition"

/-- Number of tenths in `q` rounded to the nearest integer, ties to even, as
Python float formatting does; computed on the numerator and denominator with
integer arithmetic. -/
def roundTenthsHalfEven (q : ℚ) : Int :=
  let a := 10 * q.num
  let b : Int := q.den
  let f := Int.fdiv a b
  let r := a - f * b
  if 2 * r < b then f
  else if b < 2 * r then f + 1
  else if f % 2 = 0 then f else f + 1

/-- Models the Python format specifier in the f-string `"{x:.1f}"`: the value
rounded to one decimal place and rendered with exactly one digit after the
point. -/
def formatFixed1 (q : ℚ) : String :=
  let n := roundTenthsHalfEven q
  let sign := if n < 0 then "-" else ""
  let m := n.natAbs
  sign ++ toString (m / 10) ++ "." ++ toString (m % 10)

/-- Embeds `get_weather` (src/script.py lines 100-128).  The outcome of the
HTTP fetch plus JSON field extraction is the explicit argument `resp`
(`none` when any step raises).  The second component of the result records
whether the network request was issued, so that the short-circuit on absent
coordinates can be stated; the source returns only the string. -/
def get_weather (lat lon : Option ℚ) (temp_unit : String)
    (resp : Option CurrentWeather) : String × Bool :=
  if lat.isNone || lon.isNone then ("Weather unavailable", false)
  else
    match resp with
    | none => ("Weather unavailable", true)
    | some cw =>
      let temperature :=
        if temp_unit = "Fahrenheit" then
          formatFixed1 (cw.temperature * 9 / 5 + 32) ++ "°F"
        else
          formatFixed1 cw.temperature ++ "°C"
      (weather_code_get cw.weathercode ++ ", " ++ temperature, true)

/-- Embeds the body of `chat_input_modifier` that assembles the `additions`
list (src/script.py lines 133-155).  `formatted_datetime` stands for the
output of babel's `format_datetime(now, locale=user_locale)` (an external
library call), `loc` for the outcome of the `geocoder.ip` call inside
`get_location`, and `wresp` for the outcome of the Open-Meteo fetch inside
`get_weather`. -/
def build_additions (p : Params) (formatted_datetime : String)
    (loc : Option GeoResult) (wresp : Option CurrentWeather) : List String :=
  let a1 : List String := []
  let a2 := if p.add_time || p.add_date then
      a1 ++ ["Current date and time: " ++ formatted_datetime]
    else a1
  let a3 := if p.add_timezone then a2 ++ ["Timezone: " ++ p.timezone] else a2
  if p.add_location then
    let r := get_location loc
    let a4 := a3 ++ ["Location: " ++ r.1 ++ ", " ++ r.2.1]
    if p.add_weather then
      match r.2.2 with
      | some ll =>
        a4 ++ ["Weather: " ++ (get_weather (some ll.1) (some ll.2) p.temp_unit wresp).1]
      | none => a4
    else a4
  else a3

/-- Embeds `chat_input_modifier` (src/script.py lines 131-157).  The unused
`state` argument of the source is dropped; the global `params` dictionary is
the explicit first argument. -/
def chat_input_modifier (p : Params) (text visible_text : String)
    (formatted_datetime : String) (loc : Option GeoResult)
    (wresp : Option CurrentWeather) : String × String :=
  let additions := build_additions p formatted_datetime loc wresp
  let modified_text :=
    if additions.isEmpty then text
    else text ++ "\n[" ++ String.intercalate " | " additions ++ "]"
  (modified_text, visible_text)

/-!
Settings persistence (`load_settings` / `save_settings`).  The settings file
and the in-memory `params` dictionary are both flat JSON objects whose values
are booleans or strings; a dictionary is modelled as an association list in
insertion order, as Python dictionaries preserve it.
-/

/-- A JSON value that can appear in the settings mapping. -/
inductive JVal where
  | jb : Bool → JVal
  | js : String → JVal
deriving DecidableEq, Repr

/-- A flat JSON object / Python dictionary in insertion order. -/
abbrev JDict := List (String × JVal)

/-- Python dictionary lookup: value of the first (unique) entry with the key. -/
def jlookup (d : JDict) (k : String) : Option JVal :=
  match d with
  | [] => none
  | (k2, v) :: rest => if k2 = k then some v else jlookup rest k

/-- Python `d.update(sd)`: entries of `d` in order with values overridden by
`sd` where present, then the entries of `sd` whose keys are new, in order. -/
def dictUpdate (d sd : JDict) : JDict :=
  (d.map fun p => (p.1, ((jlookup sd p.1).getD p.2))) ++
    sd.filter (fun p => (jlookup d p.1).isNone)

/-- The `default_params` dictionary of the source (lines 19-28). -/
def default_params : JDict :=
  [("add_time", JVal.jb true), ("add_date", JVal.jb true),
   ("add_timezone", JVal.jb true), ("add_location", JVal.jb true),
   ("add_weather", JVal.jb true), ("temp_unit", JVal.js "Celsius"),
   ("timezone", JVal.js "UTC"), ("locale", JVal.js "en_US")]

/-- Embeds `save_settings` (src/script.py lines 75-80): `json.dump(params, f)`
writes the in-memory mapping verbatim; the function yields the resulting file
contents (serialization of a flat bool/string object is modelled as the
identity on the mapping). -/
def save_settings (params : JDict) : JDict :=
  params

/-- Embeds `load_settings` (src/script.py lines 65-72): when the settings file
exists (`file = some saved`), `params.update(saved_params)` merges the saved
entries into the in-memory mapping; when it does not, the mapping is left as
is (and `save_settings` is called).  Yields the in-memory mapping afterwards. -/
def load_settings (params : JDict) (file : Option JDict) : JDict :=
  match file with
  | some saved => dictUpdate params saved
  | none => params

/-- The date/time fragment of the annotation. -/
def dtFragment (formatted_datetime : String) : String :=
  "Current date and time: " ++ formatted_datetime

/-- The timezone fragment of the annotation. -/
def tzFragment (p : Params) : String :=
  "Timezone: " ++ p.timezone

/-- The location fragment of the annotation. -/
def locFragment (loc : Option GeoResult) : String :=
  "Location: " ++ (get_location loc).1 ++ ", " ++ (get_location loc).2.1

/-- The weather fragment of the annotation (its value when coordinates are
absent is irrelevant: the fragment is only appended when they are present). -/
def weatherFragment (p : Params) (loc : Option GeoResult)
    (wresp : Option CurrentWeather) : String :=
  match (get_location loc).2.2 with
  | some ll => "Weather: " ++ (get_weather (some ll.1) (some ll.2) p.temp_unit wresp).1
  | none => "Weather: " ++ "Weather unavailable"

/-- Normal form of the additions list: the concatenation of one optional
fragment per toggle, in the source's fixed order. -/
theorem build_additions_eq (p : Params) (fd : String) (loc : Option GeoResult)
    (wresp : Option CurrentWeather) :
    build_additions p fd loc wresp =
      (if p.add_time || p.add_date then [dtFragment fd] else []) ++
      (if p.add_timezone then [tzFragment p] else []) ++
      (if p.add_location then
        locFragment loc ::
          (if p.add_weather && ((get_location loc).2.2).isSome then
            [weatherFragment p loc wresp]
          else [])
      else []) := by
  cases h1 : (p.add_time || p.add_date) <;> cases h2 : p.add_timezone <;>
    cases h3 : p.add_location <;> cases h4 : p.add_weather <;>
    cases h5 : (get_location loc).2.2 <;>
    simp [build_additions, h1, h2, h3, h4, h5, dtFragment, tzFragment,
      locFragment, weatherFragment]

/-- Head character of a string append, when the left part is nonempty. -/
theorem append_data_head (s : String) (c : Char) (x : String)
    (h : s.data.head? = some c) : (s ++ x).data.head? = some c := by
  have hd : (s ++ x).data = s.data ++ x.data := rfl
  rw [hd]
  cases hs : s.data with
  | nil => rw [hs] at h; exact absurd h (by simp)
  | cons a t =>
    rw [hs] at h
    simp only [List.head?] at h
    simp [hs, h]

/-- Two strings with different head characters are different. -/
theorem ne_of_data_head_ne (s t : String) (c d : Char)
    (hs : s.data.head? = some c) (ht : t.data.head? = some d) (hne : c ≠ d) :
    s ≠ t := by
  intro h
  rw [h, ht] at hs
  exact hne (Option.some.inj hs).symm

/-- Lookup in an appended dictionary when the left part has the key. -/
theorem jlookup_append_some (l₁ l₂ : JDict) (k : String) (v : JVal)
    (h : jlookup l₁ k = some v) : jlookup (l₁ ++ l₂) k = some v := by
  induction l₁ with
  | nil => simp [jlookup] at h
  | cons p rest ih =>
    by_cases he : p.1 = k
    · rw [List.cons_append, jlookup, if_pos he]
      rw [jlookup, if_pos he] at h
      exact h
    · rw [List.cons_append, jlookup, if_neg he]
      rw [jlookup, if_neg he] at h
      exact ih h

/-- Lookup in an appended dictionary when the left part lacks the key. -/
theorem jlookup_append_none (l₁ l₂ : JDict) (k : String)
    (h : jlookup l₁ k = none) : jlookup (l₁ ++ l₂) k = jlookup l₂ k := by
  induction l₁ with
  | nil => simp
  | cons p rest ih =>
    by_cases he : p.1 = k
    · rw [jlookup, if_pos he] at h
      simp at h
    · rw [List.cons_append, jlookup, if_neg he]
      rw [jlookup, if_neg he] at h
      exact ih h

/-- Lookup in the overridden copy of `d` used by `dictUpdate`. -/
theorem jlookup_map_override (d sd : JDict) (k : String) :
    jlookup (d.map fun p => (p.1, ((jlookup sd p.1).getD p.2))) k
      = (jlookup d k).map (fun v => (jlookup sd k).getD v) := by
  induction d with
  | nil => rfl
  | cons p rest ih =>
    by_cases he : p.1 = k
    · subst he
      simp [jlookup]
    · simp [jlookup, he, ih]

/-- A key absent from a dictionary is absent from any filtered copy. -/
theorem jlookup_filter_none (sd : JDict) (q : String × JVal → Bool) (k : String)
    (h : jlookup sd k = none) : jlookup (sd.filter q) k = none := by
  induction sd with
  | nil => rfl
  | cons p rest ih =>
    rw [jlookup] at h
    by_cases he : p.1 = k
    · rw [if_pos he] at h
      simp at h
    · rw [if_neg he] at h
      rw [List.filter_cons]
      split
      · rw [jlookup, if_neg he]
        exact ih h
      · exact ih h

/-- With no duplicate keys, every entry is found by lookup on its key. -/
theorem jlookup_self (d : JDict) (hd : (d.map Prod.fst).Nodup) :
    ∀ p ∈ d, jlookup d p.1 = some p.2 := by
  induction d with
  | nil => intro p hp; simp at hp
  | cons q rest ih =>
    intro p hp
    rw [List.map_cons, List.nodup_cons] at hd
    rcases List.mem_cons.mp hp with h | h
    · rw [h, jlookup, if_pos rfl]
    · rw [jlookup]
      have hne : q.1 ≠ p.1 := by
        intro he
        exact hd.1 (he ▸ List.mem_map_of_mem Prod.fst h)
      rw [if_neg hne]
      exact ih hd.2 p h

/-- Merging a dictionary with no duplicate keys into itself changes nothing. -/
theorem dictUpdate_self (d : JDict) (hd : (d.map Prod.fst).Nodup) :
    dictUpdate d d = d := by
  have hmap : (d.map fun p => (p.1, ((jlookup d p.1).getD p.2))) = d := by
    have h1 : ∀ p ∈ d, (p.1, ((jlookup d p.1).getD p.2)) = p := by
      intro p hp
      rw [jlookup_self d hd p hp]
      rfl
    exact (List.map_congr_left h1).trans (List.map_id d)
  have hfil : d.filter (fun p => (jlookup d p.1).isNone) = [] := by
    rw [List.filter_eq_nil_iff]
    intro p hp
    rw [jlookup_self d hd p hp]
    simp
  rw [dictUpdate, hmap, hfil, List.append_nil]

/-- Claim C1: when all five boolean toggles are false, `chat_input_modifier`
returns the model-facing input text unchanged: no fragments, no newline and
no brackets are appended. -/
theorem chat_input_unchanged_when_all_toggles_off (p : Params)
    (text visible_text fd : String) (loc : Option GeoResult)
    (wresp : Option CurrentWeather)
    (h1 : p.add_time = false) (h2 : p.add_date = false)
    (h3 : p.add_timezone = false) (h4 : p.add_location = false)
    (_h5 : p.add_weather = false) :
    (chat_input_modifier p text visible_text fd loc wresp).1 = text := by
  simp [chat_input_modifier, build_additions, h1, h2, h3, h4]

/-- Witness for C1 at a concrete settings state and input. -/
theorem chat_input_unchanged_when_all_toggles_off_witness :
    Params.add_time ⟨false, false, false, false, false, "Celsius", "UTC", "en_US"⟩
        = false ∧
    (chat_input_modifier ⟨false, false, false, false, false, "Celsius", "UTC", "en_US"⟩
        "Hello" "Hi" "d" none none).1 = "Hello" :=
  ⟨rfl, chat_input_unchanged_when_all_toggles_off _ "Hello" "Hi" "d" none none
    rfl rfl rfl rfl rfl⟩

/-- Claim C2: whatever subset of toggles is enabled, the additions list built
by `chat_input_modifier` is a sublist of the four possible fragments in the
fixed order date/time, timezone, location, weather. -/
theorem chat_fragments_fixed_order (p : Params) (fd : String)
    (loc : Option GeoResult) (wresp : Option CurrentWeather) :
    List.Sublist (build_additions p fd loc wresp)
      [dtFragment fd, tzFragment p, locFragment loc,
       weatherFragment p loc wresp] := by
  rw [build_additions_eq]
  have s1 : List.Sublist
      (if p.add_time || p.add_date then [dtFragment fd] else [])
      [dtFragment fd] := by
    split
    · exact List.Sublist.refl _
    · exact List.nil_sublist _
  have s2 : List.Sublist (if p.add_timezone then [tzFragment p] else [])
      [tzFragment p] := by
    split
    · exact List.Sublist.refl _
    · exact List.nil_sublist _
  have s4 : List.Sublist
      (if p.add_weather && ((get_location loc).2.2).isSome then
        [weatherFragment p loc wresp]
      else [])
      [weatherFragment p loc wresp] := by
    split
    · exact List.Sublist.refl _
    · exact List.nil_sublist _
  have s3 : List.Sublist
      (if p.add_location then
        locFragment loc ::
          (if p.add_weather && ((get_location loc).2.2).isSome then
            [weatherFragment p loc wresp]
          else [])
      else [])
      [locFragment loc, weatherFragment p loc wresp] := by
    split
    · exact List.Sublist.cons₂ _ s4
    · exact List.nil_sublist _
  exact (s1.append s2).append s3

/-- Claim C3: a weather fragment appears among the additions only when the
location lookup yielded coordinates and `add_weather` is enabled. -/
theorem weather_fragment_only_if_location (p : Params) (fd : String)
    (loc : Option GeoResult) (wresp : Option CurrentWeather)
    (h : ∃ w, ("Weather: " ++ w) ∈ build_additions p fd loc wresp) :
    ((get_location loc).2.2).isSome = true ∧ p.add_weather = true := by
  obtain ⟨w, hw⟩ := h
  have hW : ("Weather: " ++ w).data.head? = some 'W' :=
    append_data_head _ _ _ rfl
  rw [build_additions_eq] at hw
  simp only [List.mem_append] at hw
  rcases hw with (h1 | h2) | h3
  · split at h1
    · have he : ("Weather: " ++ w) = dtFragment fd := by simpa using h1
      exact absurd he (ne_of_data_head_ne _ _ 'W' 'C' hW
        (append_data_head _ _ _ rfl) (by decide))
    · simp at h1
  · split at h2
    · have he : ("Weather: " ++ w) = tzFragment p := by simpa using h2
      exact absurd he (ne_of_data_head_ne _ _ 'W' 'T' hW
        (append_data_head _ _ _ rfl) (by decide))
    · simp at h2
  · split at h3
    · rcases List.mem_cons.mp h3 with he | h4
      · have hL : (locFragment loc).data.head? = some 'L' :=
          append_data_head _ _ _ (append_data_head _ _ _
            (append_data_head _ _ _ rfl))
        exact absurd he (ne_of_data_head_ne _ _ 'W' 'L' hW hL (by decide))
      · split at h4
        · rename_i hc
          rw [Bool.and_eq_true] at hc
          exact ⟨hc.2, hc.1⟩
        · simp at h4
    · simp at h3

/-- Witness for C3: an enabled configuration in which the weather fragment is
present. -/
theorem weather_fragment_only_if_location_witness :
    (∃ w, ("Weather: " ++ w) ∈
      build_additions ⟨true, true, true, true, true, "Celsius", "UTC", "en_US"⟩
        "d" (some ⟨"Paris", "France", some (1, 2)⟩) none) ∧
    ((get_location (some ⟨"Paris", "France", some (1, 2)⟩)).2.2).isSome = true ∧
    Params.add_weather ⟨true, true, true, true, true, "Celsius", "UTC", "en_US"⟩
      = true :=
  ⟨⟨"Weather unavailable", by decide⟩,
   weather_fragment_only_if_location _ "d" _ none
     ⟨"Weather unavailable", by decide⟩⟩

/-- Claim C4: the visible text is returned unchanged as the second component
of the result of `chat_input_modifier`, in all cases. -/
theorem visible_text_passthrough (p : Params) (text visible_text fd : String)
    (loc : Option GeoResult) (wresp : Option CurrentWeather) :
    (chat_input_modifier p text visible_text fd loc wresp).2 = visible_text :=
  rfl

/-- Claim C5: `get_location` maps a raised exception to the fixed placeholder
triple and passes a provider response through unchanged. -/
theorem get_location_failure_placeholder :
    get_location none = ("Location unavailable", "Unknown", none) ∧
    ∀ g : GeoResult, get_location (some g) = (g.city, g.country, g.latlng) :=
  ⟨rfl, fun _ => rfl⟩

/-- Claim C6: with an absent coordinate `get_weather` returns the placeholder
immediately and the network request is not issued (second component false). -/
theorem get_weather_short_circuit (lat lon : Option ℚ) (u : String)
    (resp : Option CurrentWeather) (h : lat = none ∨ lon = none) :
    get_weather lat lon u resp = ("Weather unavailable", false) := by
  rcases h with h | h <;> subst h <;> simp [get_weather]

/-- Witness for C6 at concrete arguments. -/
theorem get_weather_short_circuit_witness :
    ((none : Option ℚ) = none ∨ (some (5 : ℚ)) = none) ∧
    get_weather none (some 5) "Celsius" none = ("Weather unavailable", false) :=
  ⟨Or.inl rfl, get_weather_short_circuit none (some 5) "Celsius" none (Or.inl rfl)⟩

/-- Claim C7: the Fahrenheit unit converts the Celsius reading through
`F = C * 9 / 5 + 32` and renders one decimal place (0 °C gives 32.0 and
100 °C gives 212.0), while the Celsius unit passes the reading through. -/
theorem get_weather_temperature_conversion (lat lon : ℚ) (cw : CurrentWeather) :
    (get_weather (some lat) (some lon) "Fahrenheit" (some cw)).1
      = weather_code_get cw.weathercode ++ ", "
          ++ formatFixed1 (cw.temperature * 9 / 5 + 32) ++ "°F" ∧
    (get_weather (some lat) (some lon) "Celsius" (some cw)).1
      = weather_code_get cw.weathercode ++ ", "
          ++ formatFixed1 cw.temperature ++ "°C" ∧
    formatFixed1 ((0 : ℚ) * 9 / 5 + 32) = "32.0" ∧
    formatFixed1 ((100 : ℚ) * 9 / 5 + 32) = "212.0" := by
  refine ⟨by simp [get_weather, String.append_assoc],
    by simp [get_weather, String.append_assoc], ?_, ?_⟩
  · have h : ((0 : ℚ) * 9 / 5 + 32) = 32 := by norm_num
    rw [h]; decide
  · have h : ((100 : ℚ) * 9 / 5 + 32) = 212 := by norm_num
    rw [h]; decide

/-- Claim C8: saving the settings mapping and loading it back yields the same
mapping; keys absent from a loaded file keep their in-memory (default)
values, and every key present before the load is present after it. -/
theorem settings_round_trip_and_merge (params : JDict)
    (h : (params.map Prod.fst).Nodup) :
    load_settings params (some (save_settings params)) = params ∧
    (∀ (file : JDict) (k : String), jlookup file k = none →
        jlookup (load_settings params (some file)) k = jlookup params k) ∧
    (∀ (file : JDict) (k : String), (jlookup params k).isSome = true →
        (jlookup (load_settings params (some file)) k).isSome = true) := by
  refine ⟨dictUpdate_self params h, ?_, ?_⟩
  · intro file k hk
    show jlookup (dictUpdate params file) k = jlookup params k
    rw [dictUpdate]
    cases hp : jlookup params k with
    | some v =>
      have hm : jlookup (params.map fun p => (p.1, ((jlookup file p.1).getD p.2))) k
          = some v := by
        rw [jlookup_map_override, hp, hk]
        rfl
      rw [jlookup_append_some _ _ _ _ hm]
    | none =>
      have hm : jlookup (params.map fun p => (p.1, ((jlookup file p.1).getD p.2))) k
          = none := by
        rw [jlookup_map_override, hp]
        rfl
      rw [jlookup_append_none _ _ _ hm, jlookup_filter_none _ _ _ hk]
  · intro file k hk
    show (jlookup (dictUpdate params file) k).isSome = true
    rw [dictUpdate]
    cases hp : jlookup params k with
    | some v =>
      have hm : jlookup (params.map fun p => (p.1, ((jlookup file p.1).getD p.2))) k
          = some ((jlookup file k).getD v) := by
        rw [jlookup_map_override, hp]
        rfl
      rw [jlookup_append_some _ _ _ _ hm]
      rfl
    | none =>
      rw [hp] at hk
      simp at hk

/-- Witness for C8 at the default settings mapping. -/
theorem settings_round_trip_and_merge_witness :
    ((default_params.map Prod.fst).Nodup) ∧
    load_settings default_params (some (save_settings default_params))
      = default_params :=
  ⟨by decide, (settings_round_trip_and_merge default_params (by decide)).1⟩

/-- Claim C10: any `temp_unit` other than the exact string `"Fahrenheit"`
falls through to Celsius formatting with the `°C` suffix. -/
theorem get_weather_default_unit_celsius (lat lon : ℚ) (cw : CurrentWeather)
    (u : String) (h : u ≠ "Fahrenheit") :
    (get_weather (some lat) (some lon) u (some cw)).1
      = weather_code_get cw.weathercode ++ ", "
          ++ formatFixed1 cw.temperature ++ "°C" := by
  simp [get_weather, h, String.append_assoc]

/-- Witness for C10 with a lower-case unit string. -/
theorem get_weather_default_unit_celsius_witness :
    ("fahrenheit" ≠ "Fahrenheit") ∧
    (get_weather (some 1) (some 2) "fahrenheit" (some ⟨0, 25⟩)).1
      = "Clear, 25.0°C" :=
  ⟨by decide,
   Eq.trans (get_weather_default_unit_celsius 1 2 ⟨0, 25⟩ "fahrenheit" (by decide))
     (by decide)⟩
